import Mathlib

/-!
Shallow embedding of `shed/sql/common/lib.rs` (the `sql_common` crate root):
the polymorphic `Connection` handle, the per-shard connection triples
(`SqlConnections`, `SqlConnectionsWithSchema`), the sharded aggregation
(`SqlShardedConnections`), and the schema-bootstrap path `create_schema`.

Backend handle types (`sqlite::SqliteMultithreaded`, `mysql::Connection`)
are opaque in the source file; they are modelled as resource identifiers,
so that two handle values are equal exactly when they refer to the same
underlying resource.  `Arc<T>` is modelled as `T` itself: cloning an `Arc`
yields another handle to the same resource, which under this modelling is
the identity function on the handle value.
-/

/-- Opaque handle to one embedded sqlite database (`sqlite::SqliteMultithreaded`
behind `Arc`); the `id` identifies the underlying resource. -/
structure SqliteMultithreaded where
  id : Nat
deriving DecidableEq

/-- Opaque handle from the mysql client connection factory (`mysql::Connection`);
the `id` identifies the underlying resource. -/
structure MysqlConnection where
  id : Nat
deriving DecidableEq

/-- `enum Connection`: generalizes over connections to Sqlite and MySQL. -/
inductive Connection where
  | Sqlite (conn : SqliteMultithreaded)
  | Mysql (conn : MysqlConnection)
deriving DecidableEq

/-- `#[derive(Clone)]` on `Connection`: the Sqlite variant clones the `Arc`
(shared ownership of the same resource), the Mysql variant clones the client
handle.  Under the handle-as-resource-id modelling both are the identity. -/
def Connection.clone (c : Connection) : Connection := c

/-- `impl From<sqlite::SqliteMultithreaded> for Connection` (wraps in `Arc::new`). -/
def Connection.fromSqlite (con : SqliteMultithreaded) : Connection :=
  Connection.Sqlite con

/-- `impl From<mysql::Connection> for Connection`. -/
def Connection.fromMysql (conn : MysqlConnection) : Connection :=
  Connection.Mysql conn

/-- `impl Debug for Connection`: the variant tag printed by `fmt`. -/
def Connection.debugFmt : Connection → String
  | Connection.Sqlite _ => "Sqlite"
  | Connection.Mysql _ => "Mysql client"

/-- Whether a `Connection` is the embedded (Sqlite) variant. -/
def Connection.isSqlite : Connection → Bool
  | Connection.Sqlite _ => true
  | Connection.Mysql _ => false

/-- `struct SqlConnections`: write, read and read-master connections for a shard. -/
structure SqlConnections where
  write_connection : Connection
  read_connection : Connection
  read_master_connection : Connection
deriving DecidableEq

/-- `SqlConnections::new_single`: create SqlConnections from a single connection. -/
def SqlConnections.new_single (connection : Connection) : SqlConnections :=
  { write_connection := connection.clone
    read_connection := connection.clone
    read_master_connection := connection }

/-- `struct SqlConnectionsWithSchema`: a `SqlConnections` plus a schema
connection, only populated for sqlite. -/
structure SqlConnectionsWithSchema where
  connections : SqlConnections
  schema_connection : Option Connection
deriving DecidableEq

/-- `SqlConnectionsWithSchema::new`: stores both fields as given. -/
def SqlConnectionsWithSchema.new (connections : SqlConnections)
    (schema_connection : Option Connection) : SqlConnectionsWithSchema :=
  { connections := connections
    schema_connection := schema_connection }

/-- `SqlConnectionsWithSchema::new_single`: builds the triple via
`SqlConnections::new_single` on a clone and stores the connection itself
as the schema connection. -/
def SqlConnectionsWithSchema.new_single (connection : Connection) :
    SqlConnectionsWithSchema :=
  { connections := SqlConnections.new_single connection.clone
    schema_connection := some connection }

/-- Outcome of `create_schema`: the returned `Result` together with the DDL
batches actually submitted to sqlite `execute_batch` during the call
(empty list means no statement was executed). -/
structure CreateSchemaOutcome where
  result : Except String Unit
  executed : List (SqliteMultithreaded × String)

/-- `SqlConnectionsWithSchema::create_schema`.  The sqlite engine's
`execute_batch` lives in the external `sqlite` module, so its outcome is
abstracted as `env`; the match on `schema_connection` is translated
arm by arm.  An `execute_batch` failure is annotated by `with_context`
with the failing SQL text. -/
def SqlConnectionsWithSchema.create_schema
    (env : SqliteMultithreaded → String → Except String Unit)
    (self : SqlConnectionsWithSchema) (schema_sql : String) :
    CreateSchemaOutcome :=
  match self.schema_connection with
  | some (Connection.Sqlite conn) =>
      { result :=
          match env conn schema_sql with
          | Except.ok _ => Except.ok ()
          | Except.error e =>
              Except.error ("failed sql: " ++ schema_sql ++ ": " ++ e)
        executed := [(conn, schema_sql)] }
  | some _ =>
      { result := Except.error "not expecting schema connection for mysql"
        executed := [] }
  | none =>
      { result := Except.ok ()
        executed := [] }

/-- `From<SqlConnectionsWithSchema> for SqlConnections`: discards the schema
connection. -/
def SqlConnections.fromWithSchema (f : SqlConnectionsWithSchema) :
    SqlConnections :=
  f.connections

/-- `SqlConnectionsWithSchema::connections`: a reference to the regular
connections. -/
def SqlConnectionsWithSchema.get_connections (self : SqlConnectionsWithSchema) :
    SqlConnections :=
  self.connections

/-- `struct SqlShardedConnections`: write, read and read-master connections
for multiple shards, column-wise. -/
structure SqlShardedConnections where
  write_connections : List Connection
  read_connections : List Connection
  read_master_connections : List Connection
deriving DecidableEq

/-- `SqlShardedConnections::is_empty`: checks `write_connections.is_empty()`. -/
def SqlShardedConnections.is_empty (self : SqlShardedConnections) : Bool :=
  self.write_connections.isEmpty

/-- The push loop inside `impl From<Vec<SqlConnections>> for
SqlShardedConnections`: each shard's three connections are pushed onto the
three accumulating vectors in input order. -/
def sqlShardedFromLoop (w r rm : List Connection) :
    List SqlConnections → SqlShardedConnections
  | [] =>
      { read_connections := r
        read_master_connections := rm
        write_connections := w }
  | connections :: rest =>
      sqlShardedFromLoop (w ++ [connections.write_connection])
        (r ++ [connections.read_connection])
        (rm ++ [connections.read_master_connection]) rest

/-- `impl From<Vec<SqlConnections>> for SqlShardedConnections`: starts from
three empty vectors and runs the push loop over the shard list. -/
def SqlShardedConnections.fromVec (shard_connections : List SqlConnections) :
    SqlShardedConnections :=
  sqlShardedFromLoop [] [] [] shard_connections

/-- Modelled from the spec: the `transaction` module is declared in
`lib.rs` (`pub mod transaction;`) but its source is not under `src/`.
A database is modelled as the list of applied mutations, newest last. -/
abbrev Db := List String

/-- Modelled from the spec: the state of one connection as the transaction
contract sees it — the committed (visible) data and whether the embedded
backend's exclusive-access guard is currently held. -/
structure ConnState where
  committed : Db
  guard_held : Bool
deriving DecidableEq

/-- Modelled from the spec: an open transaction records the mutations issued
since `begin`, not yet visible to readers. -/
structure Transaction where
  pending : List String
deriving DecidableEq

/-- Modelled from the spec: `begin(connection)` yields a fresh transaction
and takes the exclusive-access guard. -/
def Transaction.begin (s : ConnState) : Transaction × ConnState :=
  ({ pending := [] }, { s with guard_held := true })

/-- Modelled from the spec: a mutation issued through an open transaction is
recorded as pending, part of one atomic unit. -/
def Transaction.write (t : Transaction) (m : String) : Transaction :=
  { t with pending := t.pending ++ [m] }

/-- Modelled from the spec: `commit()` finalizes all pending changes and
releases the guard. -/
def Transaction.commit (t : Transaction) (s : ConnState) : ConnState :=
  { committed := s.committed ++ t.pending, guard_held := false }

/-- Modelled from the spec: dropping an open, uncommitted transaction rolls
back — the pending mutations are discarded and the guard is released. -/
def Transaction.dropUncommitted (_t : Transaction) (s : ConnState) : ConnState :=
  { committed := s.committed, guard_held := false }

/-- Modelled from the spec: a read on the connection sees the committed data. -/
def ConnState.readAll (s : ConnState) : Db :=
  s.committed

/-! Helper lemmas about the sharded-connections push loop. -/

theorem sqlShardedFromLoop_eq (xs : List SqlConnections) :
    ∀ w r rm, sqlShardedFromLoop w r rm xs =
      { write_connections := w ++ xs.map SqlConnections.write_connection
        read_connections := r ++ xs.map SqlConnections.read_connection
        read_master_connections :=
          rm ++ xs.map SqlConnections.read_master_connection } := by
  induction xs with
  | nil => intro w r rm; simp [sqlShardedFromLoop]
  | cons c rest ih =>
      intro w r rm
      simp [sqlShardedFromLoop, ih]

theorem fromVec_write (xs : List SqlConnections) :
    (SqlShardedConnections.fromVec xs).write_connections =
      xs.map SqlConnections.write_connection := by
  simp [SqlShardedConnections.fromVec, sqlShardedFromLoop_eq]

theorem fromVec_read (xs : List SqlConnections) :
    (SqlShardedConnections.fromVec xs).read_connections =
      xs.map SqlConnections.read_connection := by
  simp [SqlShardedConnections.fromVec, sqlShardedFromLoop_eq]

theorem fromVec_read_master (xs : List SqlConnections) :
    (SqlShardedConnections.fromVec xs).read_master_connections =
      xs.map SqlConnections.read_master_connection := by
  simp [SqlShardedConnections.fromVec, sqlShardedFromLoop_eq]

/-! The claim theorems. -/

/-- C1: for every `SqlConnectionsWithSchema` whose `schema_connection` is
`Some` of the networked (Mysql) variant, and every `schema_sql`,
`create_schema` returns the configuration-mismatch error and executes no
DDL statement, whatever the sqlite engine would do. -/
theorem create_schema_mysql_fails
    (env : SqliteMultithreaded → String → Except String Unit)
    (s : SqlConnectionsWithSchema) (m : MysqlConnection) (schema_sql : String)
    (h : s.schema_connection = some (Connection.Mysql m)) :
    (s.create_schema env schema_sql).result =
      Except.error "not expecting schema connection for mysql" ∧
    (s.create_schema env schema_sql).executed = [] := by
  simp [SqlConnectionsWithSchema.create_schema, h]

/-- Witness for C1 at a concrete mysql-backed value. -/
theorem create_schema_mysql_fails_witness :
    ((SqlConnectionsWithSchema.new
        (SqlConnections.new_single (Connection.Mysql ⟨0⟩))
        (some (Connection.Mysql ⟨1⟩))).create_schema
          (fun _ _ => Except.ok ()) "CREATE TABLE t (x INTEGER)").result =
      Except.error "not expecting schema connection for mysql" ∧
    ((SqlConnectionsWithSchema.new
        (SqlConnections.new_single (Connection.Mysql ⟨0⟩))
        (some (Connection.Mysql ⟨1⟩))).create_schema
          (fun _ _ => Except.ok ()) "CREATE TABLE t (x INTEGER)").executed = [] :=
  create_schema_mysql_fails (fun _ _ => Except.ok ()) _ ⟨1⟩ _ rfl

/-- C2: for every `SqlConnectionsWithSchema` whose `schema_connection` is
`None`, and every `schema_sql`, `create_schema` returns success and
executes no statement. -/
theorem create_schema_none_noop
    (env : SqliteMultithreaded → String → Except String Unit)
    (s : SqlConnectionsWithSchema) (schema_sql : String)
    (h : s.schema_connection = none) :
    (s.create_schema env schema_sql).result = Except.ok () ∧
    (s.create_schema env schema_sql).executed = [] := by
  simp [SqlConnectionsWithSchema.create_schema, h]

/-- Witness for C2 at a concrete schema-less value. -/
theorem create_schema_none_noop_witness :
    ((SqlConnectionsWithSchema.new
        (SqlConnections.new_single (Connection.Sqlite ⟨0⟩))
        none).create_schema
          (fun _ _ => Except.ok ()) "CREATE TABLE t (x INTEGER)").result =
      Except.ok () ∧
    ((SqlConnectionsWithSchema.new
        (SqlConnections.new_single (Connection.Sqlite ⟨0⟩))
        none).create_schema
          (fun _ _ => Except.ok ()) "CREATE TABLE t (x INTEGER)").executed = [] :=
  create_schema_none_noop (fun _ _ => Except.ok ()) _ _ rfl

/-- C3 counterexample: `new_single` applied to a networked (Mysql) connection
is a value built by a public constructor whose `schema_connection` is `Some`
of a non-Sqlite connection, so the claimed constructor-enforced invariant
fails. -/
theorem new_single_mysql_schema_counterexample :
    ((SqlConnectionsWithSchema.new_single
        (Connection.Mysql ⟨0⟩)).schema_connection.map Connection.isSqlite) =
      some false := rfl

/-- C3 amended: the public constructors store the schema connection verbatim —
`new` stores exactly the optional connection it is given and `new_single c`
always stores `some c` (same variant as `c`, embedded or not); the
Some-implies-embedded invariant is not enforced at construction but checked
at `create_schema` time. -/
theorem constructors_store_schema_connection_verbatim
    (conns : SqlConnections) (sc : Option Connection) (c : Connection) :
    (SqlConnectionsWithSchema.new conns sc).schema_connection = sc ∧
    (SqlConnectionsWithSchema.new_single c).schema_connection = some c :=
  ⟨rfl, rfl⟩

/-- C4: converting an ordered list of per-shard `SqlConnections` to
`SqlShardedConnections` yields three sequences of the input's length whose
`i`-th entries are exactly the `i`-th input's write, read and read-master
connections. -/
theorem fromVec_preserves_shards (xs : List SqlConnections) (i : Nat) :
    (SqlShardedConnections.fromVec xs).write_connections.length = xs.length ∧
    (SqlShardedConnections.fromVec xs).read_connections.length = xs.length ∧
    (SqlShardedConnections.fromVec xs).read_master_connections.length =
      xs.length ∧
    (SqlShardedConnections.fromVec xs).write_connections[i]? =
      xs[i]?.map SqlConnections.write_connection ∧
    (SqlShardedConnections.fromVec xs).read_connections[i]? =
      xs[i]?.map SqlConnections.read_connection ∧
    (SqlShardedConnections.fromVec xs).read_master_connections[i]? =
      xs[i]?.map SqlConnections.read_master_connection := by
  simp [fromVec_write, fromVec_read, fromVec_read_master, List.getElem?_map]

/-- C5: for every `SqlShardedConnections` built through the `From` conversion
the three sequences have equal length, and `is_empty` is true exactly when
that common length is zero. -/
theorem fromVec_equal_lengths_and_isEmpty (xs : List SqlConnections) :
    (SqlShardedConnections.fromVec xs).write_connections.length =
      (SqlShardedConnections.fromVec xs).read_connections.length ∧
    (SqlShardedConnections.fromVec xs).read_connections.length =
      (SqlShardedConnections.fromVec xs).read_master_connections.length ∧
    ((SqlShardedConnections.fromVec xs).is_empty = true ↔
      (SqlShardedConnections.fromVec xs).write_connections.length = 0) := by
  simp [fromVec_write, fromVec_read, fromVec_read_master,
    SqlShardedConnections.is_empty, List.isEmpty_iff_length_eq_zero]

/-- C6: `SqlConnections::new_single c` makes all three roles clones of `c`,
i.e. handles to the same underlying resource as `c`. -/
theorem new_single_all_roles_same_resource (c : Connection) :
    (SqlConnections.new_single c).write_connection = c ∧
    (SqlConnections.new_single c).read_connection = c ∧
    (SqlConnections.new_single c).read_master_connection = c :=
  ⟨rfl, rfl, rfl⟩

/-- C7: `SqlConnectionsWithSchema::new_single c` stores as `connections`
exactly `SqlConnections::new_single` of a clone of `c`, and stores a clone
of `c` as its schema connection (so `schema_connection` is always `Some`
for values built by `new_single`). -/
theorem with_schema_new_single_fields (c : Connection) :
    (SqlConnectionsWithSchema.new_single c).connections =
      SqlConnections.new_single c.clone ∧
    (SqlConnectionsWithSchema.new_single c).schema_connection =
      some c.clone :=
  ⟨rfl, rfl⟩

/-- C8: converting `SqlConnectionsWithSchema::new conns sc` back to
`SqlConnections` yields exactly `conns`, the same triple the `connections()`
accessor exposes; only the schema connection is lost. -/
theorem from_with_schema_is_projection
    (conns : SqlConnections) (sc : Option Connection) :
    SqlConnections.fromWithSchema (SqlConnectionsWithSchema.new conns sc) =
      conns ∧
    (SqlConnectionsWithSchema.new conns sc).get_connections = conns ∧
    SqlConnections.fromWithSchema (SqlConnectionsWithSchema.new conns sc) =
      (SqlConnectionsWithSchema.new conns sc).get_connections :=
  ⟨rfl, rfl, rfl⟩

/-- C9: cloning a `Connection` yields another handle to the same underlying
resource — the clone is the very same handle value, so in particular its
variant (as printed by the `Debug` impl) is unchanged; and since connection
values are immutable, the variant fixed at construction never changes. -/
theorem clone_same_variant_same_resource (c : Connection) :
    c.clone = c ∧ c.clone.debugFmt = c.debugFmt :=
  ⟨rfl, rfl⟩

/-- C10: a transaction begun on a connection, with one mutation issued and
then dropped uncommitted, leaves subsequent reads on the connection seeing
the original data (the mutation is rolled back) and leaves the embedded
backend's exclusive-access guard released. -/
theorem rollback_on_drop (s : ConnState) (m : String) :
    (Transaction.dropUncommitted
        (Transaction.write (Transaction.begin s).1 m)
        (Transaction.begin s).2).readAll = s.readAll ∧
    (Transaction.dropUncommitted
        (Transaction.write (Transaction.begin s).1 m)
        (Transaction.begin s).2).guard_held = false :=
  ⟨rfl, rfl⟩
